import Mathlib

/-!
# siad startup: asset directory lookup and configuration resolution

A shallow embedding of `siad/main.go`.  The operating system and the three
libraries the file calls (`os.Stat`, `homedir.Dir`, `gcfg.ReadFileInto`, the
cobra command line) appear as explicit inputs; everything `main.go` itself
computes is a Lean function over them.
-/

set_option autoImplicit false

namespace Siad

/-! ## Errors -/

/-- A Go `error` value held by the variable `err` of `findSiaDir`, tagged with the call
that created it. -/
inductive Error where
  /-- returned by `os.Stat` -/
  | os (msg : String)
  /-- returned by `homedir.Dir` -/
  | homedir (msg : String)
  /-- created by `fmt.Errorf` in this file -/
  | errorf (msg : String)
  deriving DecidableEq, Repr

/-- The text `fmt.Println` shows for an error (Go's `err.Error()`). -/
def Error.msg : Error → String
  | .os m => m
  | .homedir m => m
  | .errorf m => m

/-! ## findSiaDir -/

/-- The two results of `homedir.Dir()`: the directory and the error (`none` is Go's `nil`). -/
structure HomeLookup where
  home : String
  err : Option String
  deriving DecidableEq, Repr

/-- The three named results of `findSiaDir`. -/
structure SiaDirResult where
  home : String
  siaDir : String
  err : Option Error
  deriving DecidableEq, Repr

/-- The error `findSiaDir` builds with `fmt.Errorf`. -/
def styleNotFound : Error :=
  Error.errorf "Style folder not found, please put the \x27style/\x27 folder in the current directory"

/-- Embedding of `findSiaDir`.  `stat p` is the error of `os.Stat(p)` (`none` when the
call succeeds), `hd` is what `homedir.Dir()` returns.  The Go variable `err` is
assigned four times; `err1`, `err2`, `err3` are its successive values. -/
def findSiaDir (stat : String → Option String) (hd : HomeLookup) : SiaDirResult :=
  -- Check the current directory for the index file.
  let err1 : Option Error := (stat "style/index.html").map Error.os
  let found : Bool := err1.isNone
  -- Check ~/.config/sia for the index file.
  let home := hd.home
  let err2 : Option Error := hd.err.map Error.homedir
  -- "This is the only error that can be returned."
  let last : SiaDirResult :=
    if !found then { home := home, siaDir := "", err := some styleNotFound }
    else { home := home, siaDir := "", err := none }
  if err2.isNone && !found then
    let dirname := home ++ "/.config/sia/style/index.html"
    let err3 : Option Error := (stat dirname).map Error.os
    if err3.isNone then
      { home := home, siaDir := home ++ "/.config/sia/", err := err3 }
    else last
  else last

/-! ## Config -/

/-- The `Siacore` group of `Config`. -/
structure SiacoreConfig where
  RPCaddr : String
  HostDirectory : String
  NoBootstrap : Bool
  deriving DecidableEq, Repr

/-- The `Siad` group of `Config`. -/
structure SiadConfig where
  APIaddr : String
  ConfigFilename : String
  DownloadDirectory : String
  StyleDirectory : String
  WalletFile : String
  deriving DecidableEq, Repr

/-- The Go struct `Config`. -/
structure Config where
  Siacore : SiacoreConfig
  Siad : SiadConfig
  deriving DecidableEq, Repr

/-- The zero value of `Config`: what the package variable `config` holds when `main` starts. -/
def Config.zero : Config :=
  { Siacore := { RPCaddr := "", HostDirectory := "", NoBootstrap := false },
    Siad := { APIaddr := "", ConfigFilename := "", DownloadDirectory := "", StyleDirectory := "",
              WalletFile := "" } }

/-- The eight fields of `Config`; each is the target of exactly one persistent flag and of
one variable of the config file. -/
inductive Field where
  | RPCaddr | HostDirectory | NoBootstrap
  | APIaddr | ConfigFilename | DownloadDirectory | StyleDirectory | WalletFile
  deriving DecidableEq, Repr

/-- A field value: seven fields are strings, `NoBootstrap` is a bool. -/
inductive Value where
  | str (s : String)
  | bool (b : Bool)
  deriving DecidableEq, Repr

/-- Read one field of a `Config`. -/
def Config.get (c : Config) : Field → Value
  | .RPCaddr => .str c.Siacore.RPCaddr
  | .HostDirectory => .str c.Siacore.HostDirectory
  | .NoBootstrap => .bool c.Siacore.NoBootstrap
  | .APIaddr => .str c.Siad.APIaddr
  | .ConfigFilename => .str c.Siad.ConfigFilename
  | .DownloadDirectory => .str c.Siad.DownloadDirectory
  | .StyleDirectory => .str c.Siad.StyleDirectory
  | .WalletFile => .str c.Siad.WalletFile

/-- One write through a pointer into `config`.  `StringVarP(&config.Siad.APIaddr, ...)`
and `BoolVarP(&config.Siacore.NoBootstrap, ...)` store a default at registration, pflag stores
the value of each flag found on the command line (`--api-addr`/`-a`, `--rpc-addr`/`-r`,
`--no-bootstrap`/`-n`, `--config-file`/`-c`, `--host-dir`/`-H`, `--style-dir`/`-s`,
`--download-dir`/`-d`, `--wallet-file`/`-w`), and gcfg stores each variable it decodes
from the sections `Siacore` and `Siad`. -/
inductive Assign where
  | RPCaddr (v : String)
  | HostDirectory (v : String)
  | NoBootstrap (v : Bool)
  | APIaddr (v : String)
  | ConfigFilename (v : String)
  | DownloadDirectory (v : String)
  | StyleDirectory (v : String)
  | WalletFile (v : String)
  deriving DecidableEq, Repr

/-- The field a write goes to. -/
def Assign.field : Assign → Field
  | .RPCaddr _ => .RPCaddr
  | .HostDirectory _ => .HostDirectory
  | .NoBootstrap _ => .NoBootstrap
  | .APIaddr _ => .APIaddr
  | .ConfigFilename _ => .ConfigFilename
  | .DownloadDirectory _ => .DownloadDirectory
  | .StyleDirectory _ => .StyleDirectory
  | .WalletFile _ => .WalletFile

/-- The value a write stores. -/
def Assign.value : Assign → Value
  | .RPCaddr v => .str v
  | .HostDirectory v => .str v
  | .NoBootstrap v => .bool v
  | .APIaddr v => .str v
  | .ConfigFilename v => .str v
  | .DownloadDirectory v => .str v
  | .StyleDirectory v => .str v
  | .WalletFile v => .str v

/-- Perform one write on `config`. -/
def Assign.apply (c : Config) : Assign → Config
  | .RPCaddr v => { c with Siacore := { c.Siacore with RPCaddr := v } }
  | .HostDirectory v => { c with Siacore := { c.Siacore with HostDirectory := v } }
  | .NoBootstrap v => { c with Siacore := { c.Siacore with NoBootstrap := v } }
  | .APIaddr v => { c with Siad := { c.Siad with APIaddr := v } }
  | .ConfigFilename v => { c with Siad := { c.Siad with ConfigFilename := v } }
  | .DownloadDirectory v => { c with Siad := { c.Siad with DownloadDirectory := v } }
  | .StyleDirectory v => { c with Siad := { c.Siad with StyleDirectory := v } }
  | .WalletFile v => { c with Siad := { c.Siad with WalletFile := v } }

/-- Perform a sequence of writes, first to last. -/
def applyAll (c : Config) (ws : List Assign) : Config :=
  ws.foldl Assign.apply c

/-- The value the last write to field `f` in `ws` stores, `none` when no write goes to `f`. -/
def lastValue (f : Field) : List Assign → Option Value
  | [] => none
  | w :: ws =>
    match lastValue f ws with
    | some v => some v
    | none => if w.field = f then some w.value else none

/-! ## main -/

/-- What `gcfg.ReadFileInto(&config, path)` does for one file: the writes it performs on
`config` in order, and the error it returns (on a decoding error the writes are the ones
made before the error). -/
structure Decode where
  writes : List Assign
  err : Option String
  deriving DecidableEq, Repr

/-- The command cobra selects from `os.Args`. -/
inductive Command where
  /-- no subcommand: `Run: startEnvironment` -/
  | root
  /-- the subcommand `version`: `Run: version` -/
  | version
  deriving DecidableEq, Repr

/-- A command line as cobra parses it: the selected command and the persistent flags
that were explicitly supplied, in order, as the writes pflag performs for them. -/
structure CmdLine where
  cmd : Command
  flags : List Assign
  deriving DecidableEq, Repr

/-- Everything outside `main.go` that `main` consults. -/
structure Env where
  /-- error of `os.Stat(path)`, `none` on success -/
  stat : String → Option String
  /-- result of `homedir.Dir()` -/
  homedir : HomeLookup
  /-- effect of `gcfg.ReadFileInto(&config, path)` -/
  readFileInto : String → Decode
  /-- error of `createDaemon(config)`, `none` on success -/
  createDaemon : Config → Option String

/-- What a run of `main` does that is visible from outside: the lines printed with
`fmt.Println`, in order, and the argument of the call of `createDaemon`, if it is called. -/
structure Run where
  out : List String
  daemon : Option Config
  deriving DecidableEq, Repr

/-- The eight flag registrations of `main`: each stores its default through the
pointer it is given. -/
def registerFlags (home siaDir : String) (config : Config) : Config :=
  let defaultConfigFile := siaDir ++ "config"
  let defaultHostDir := siaDir ++ "host/"
  let defaultStyleDir := siaDir ++ "style/"
  let defaultDownloadDir := home ++ "/Downloads/"
  let defaultWalletFile := siaDir ++ "sia.wallet"
  applyAll config
    [ .APIaddr "localhost:9980",
      .RPCaddr ":9988",
      .NoBootstrap false,
      .ConfigFilename defaultConfigFile,
      .HostDirectory defaultHostDir,
      .StyleDirectory defaultStyleDir,
      .DownloadDirectory defaultDownloadDir,
      .WalletFile defaultWalletFile ]

/-- The config-file block of `main`: when `os.Stat(config.Siad.ConfigFilename)` succeeds,
decode that file into `config` and print the decoding error, if any.  Returns the new
`config` and the lines printed. -/
def loadConfigFile (env : Env) (config : Config) : Config × List String :=
  match env.stat config.Siad.ConfigFilename with
  | none =>
    let d := env.readFileInto config.Siad.ConfigFilename
    (applyAll config d.writes,
      match d.err with
      | some e => ["Error reading config file: " ++ e]
      | none => [])
  | some _ => (config, [])

/-- The function `startEnvironment`. -/
def startEnvironment (env : Env) (config : Config) : Run :=
  match env.createDaemon config with
  | some e => { out := [e], daemon := some config }
  | none => { out := [], daemon := some config }

/-- The function `version`. -/
def version : Run :=
  { out := ["Sia Daemon v0.1.0"], daemon := none }

/-- The call `root.Execute()`: store the explicitly supplied flags, then run the selected
command. -/
def execute (env : Env) (args : CmdLine) (config : Config) : Run :=
  let config := applyAll config args.flags
  match args.cmd with
  | .root => startEnvironment env config
  | .version => version

/-- The function `main`. -/
def main (env : Env) (args : CmdLine) : Run :=
  -- Add flag defaults, which have the lowest priority.
  let r := findSiaDir env.stat env.homedir
  let out1 : List String :=
    match r.err with
    | some e => ["Warning: " ++ e.msg]
    | none => []
  let config := registerFlags r.home r.siaDir Config.zero
  -- Load the config file, which has the middle priority.
  let (config, out2) := loadConfigFile env config
  -- Execute overwrites what the config file set, for the flags the user specified.
  let run := execute env args config
  { run with out := out1 ++ out2 ++ run.out }

/-- The default build as the specification words it (`buildDefaults`): API address
`localhost:9980`, RPC address `:9988`, bootstrap-disabled `false`, host directory
`assetBaseDir ++ "host/"`, style directory `assetBaseDir ++ "style/"`, config-file path
`assetBaseDir ++ "config"`, wallet file `assetBaseDir ++ "sia.wallet"`, download directory
`homeDir ++ "/Downloads/"`.  Compared with `registerFlags` below. -/
def buildDefaults (assetBaseDir homeDir : String) : Config :=
  { Siacore :=
      { RPCaddr := ":9988",
        HostDirectory := assetBaseDir ++ "host/",
        NoBootstrap := false },
    Siad :=
      { APIaddr := "localhost:9980",
        ConfigFilename := assetBaseDir ++ "config",
        DownloadDirectory := homeDir ++ "/Downloads/",
        StyleDirectory := assetBaseDir ++ "style/",
        WalletFile := assetBaseDir ++ "sia.wallet" } }

/-- The precedence rule as the specification words it: the command-line value if the
flag was explicitly supplied, otherwise the config-file value if the file defines the
field, otherwise the default. -/
def precedence (cli file : Option Value) (dflt : Value) : Value :=
  match cli with
  | some v => v
  | none =>
    match file with
    | some v => v
    | none => dflt

/-! ## Concrete environments -/

/-- A filesystem in which only `style/index.html` of the working directory exists. -/
def statCwdOnly (p : String) : Option String :=
  if p = "style/index.html" then none else some "no such file or directory"

/-- A filesystem in which only `/home/user/.config/sia/style/index.html` exists. -/
def statHomeOnly (p : String) : Option String :=
  if p = "/home/user/.config/sia/style/index.html" then none else some "no such file or directory"

/-- A filesystem in which every path exists except `style/index.html` of the working
directory. -/
def statAllButCwd (p : String) : Option String :=
  if p = "style/index.html" then some "no such file or directory" else none

/-- A filesystem in which nothing exists. -/
def statNothing (_ : String) : Option String :=
  some "no such file or directory"

/-- A successful `homedir.Dir()`. -/
def homeUser : HomeLookup := { home := "/home/user", err := none }

/-- A failed `homedir.Dir()`: the empty string and an error. -/
def homeFailed : HomeLookup :=
  { home := "", err := some "blank output when reading home directory" }

/-- A config file that sets `Siad.APIaddr = "0.0.0.0:9980"` and nothing else, decoded
without error. -/
def apiAddrFile : Decode :=
  { writes := [Assign.APIaddr "0.0.0.0:9980"], err := none }

/-- A config file whose decoding stores `Siacore.RPCaddr = ":7777"` and then fails. -/
def brokenFile : Decode :=
  { writes := [Assign.RPCaddr ":7777"], err := some "2:1: expected section header" }

/-- The marker is in the working directory, the config file `config` exists there and
sets the API address. -/
def envFile : Env :=
  { stat := fun p =>
      if p = "style/index.html" ∨ p = "config" then none else some "no such file or directory",
    homedir := homeUser,
    readFileInto := fun p => if p = "config" then apiAddrFile else { writes := [], err := none },
    createDaemon := fun _ => none }

/-- The marker is in the working directory and the config file `config` exists there
but does not decode. -/
def envBroken : Env :=
  { stat := fun p =>
      if p = "style/index.html" ∨ p = "config" then none else some "no such file or directory",
    homedir := homeUser,
    readFileInto := fun p => if p = "config" then brokenFile else { writes := [], err := none },
    createDaemon := fun _ => none }

/-- The marker is only under the home fallback and no config file exists. -/
def envHome : Env :=
  { stat := statHomeOnly,
    homedir := homeUser,
    readFileInto := fun _ => { writes := [], err := none },
    createDaemon := fun _ => none }

/-- No marker anywhere, and no config file. -/
def envNothing : Env :=
  { stat := statNothing,
    homedir := homeUser,
    readFileInto := fun _ => { writes := [], err := none },
    createDaemon := fun _ => none }

/-- The marker is in the working directory, there is no file `config`, and
`/etc/sia/alt.cfg` is a config file that sets the API address. -/
def envAltFile : Env :=
  { stat := fun p =>
      if p = "style/index.html" ∨ p = "/etc/sia/alt.cfg" then none
      else some "no such file or directory",
    homedir := homeUser,
    readFileInto := fun p =>
      if p = "/etc/sia/alt.cfg" then apiAddrFile else { writes := [], err := none },
    createDaemon := fun _ => none }

/-! ## Lemmas on findSiaDir -/

theorem append_sia_ne_empty (home : String) : home ++ "/.config/sia/" ≠ "" := by
  intro h
  have hl := congrArg String.length h
  rw [String.length_append] at hl
  have h13 : ("/.config/sia/" : String).length = 13 := by decide
  have h0 : ("" : String).length = 0 := by decide
  omega

/-- Closed form of `findSiaDir` by cases on the three probes. -/
theorem findSiaDir_eq (stat : String → Option String) (hd : HomeLookup) :
    findSiaDir stat hd =
      if stat "style/index.html" = none then
        { home := hd.home, siaDir := "", err := none }
      else if hd.err = none ∧ stat (hd.home ++ "/.config/sia/style/index.html") = none then
        { home := hd.home, siaDir := hd.home ++ "/.config/sia/", err := none }
      else
        { home := hd.home, siaDir := "", err := some styleNotFound } := by
  unfold findSiaDir
  cases h1 : stat "style/index.html" <;> cases h2 : hd.err <;>
    cases h3 : stat (hd.home ++ "/.config/sia/style/index.html") <;> simp [h3]

theorem findSiaDir_err_cases (stat : String → Option String) (hd : HomeLookup) :
    (findSiaDir stat hd).err = none ∨ (findSiaDir stat hd).err = some styleNotFound := by
  rw [findSiaDir_eq]
  cases h1 : stat "style/index.html" <;> cases h2 : hd.err <;>
    cases h3 : stat (hd.home ++ "/.config/sia/style/index.html") <;> simp

/-! ## Lemmas on the three passes -/

theorem get_apply (c : Config) (w : Assign) (f : Field) :
    (w.apply c).get f = if w.field = f then w.value else c.get f := by
  cases w <;> cases f <;> rfl

theorem get_applyAll (ws : List Assign) (c : Config) (f : Field) :
    (applyAll c ws).get f = (lastValue f ws).getD (c.get f) := by
  induction ws generalizing c with
  | nil => rfl
  | cons w ws ih =>
    have hstep : applyAll c (w :: ws) = applyAll (w.apply c) ws := rfl
    rw [hstep, ih, get_apply]
    cases hl : lastValue f ws <;> by_cases hf : w.field = f <;> simp [lastValue, hl, hf]

theorem registerFlags_zero (home siaDir : String) :
    registerFlags home siaDir Config.zero = buildDefaults siaDir home := rfl

theorem main_root (env : Env) (flags : List Assign) :
    (main env ⟨Command.root, flags⟩).daemon =
      some (applyAll (loadConfigFile env (buildDefaults
        (findSiaDir env.stat env.homedir).siaDir (findSiaDir env.stat env.homedir).home)).1 flags) := by
  simp only [main, execute, startEnvironment, registerFlags_zero]
  cases env.createDaemon _ <;> rfl

theorem loadConfigFile_get (env : Env) (c : Config) (f : Field) :
    (loadConfigFile env c).1.get f =
      ((if env.stat c.Siad.ConfigFilename = none
          then lastValue f (env.readFileInto c.Siad.ConfigFilename).writes
          else none).getD (c.get f)) := by
  unfold loadConfigFile
  cases h : env.stat c.Siad.ConfigFilename <;> simp [get_applyAll]

/-! ## Claims on findSiaDir -/

/-- C2, as stated, fails: with `style/index.html` missing from the working directory,
the marker present at `<home>/.config/sia/style/index.html` and `homedir.Dir` failing,
`findSiaDir` returns the style-folder error although one location has the marker. -/
theorem style_error_despite_home_marker :
    ¬ ((findSiaDir statAllButCwd homeFailed).err ≠ none ↔
        (statAllButCwd "style/index.html" ≠ none ∧
          statAllButCwd (homeFailed.home ++ "/.config/sia/style/index.html") ≠ none)) := by
  decide

/-- C2, amended: `findSiaDir` returns a non-nil error if and only if `style/index.html`
is absent from the working directory and either `homedir.Dir` failed or
`<home>/.config/sia/style/index.html` is absent. -/
theorem findSiaDir_err_iff (stat : String → Option String) (hd : HomeLookup) :
    (findSiaDir stat hd).err ≠ none ↔
      (stat "style/index.html" ≠ none ∧
        (hd.err ≠ none ∨ stat (hd.home ++ "/.config/sia/style/index.html") ≠ none)) := by
  rw [findSiaDir_eq]
  cases h1 : stat "style/index.html" <;> cases h2 : hd.err <;>
    cases h3 : stat (hd.home ++ "/.config/sia/style/index.html") <;> simp

/-- C3, as stated, fails: on the filesystem that has the marker only under
`/home/user/.config/sia/`, the run in which `homedir.Dir` succeeds returns a nil error
and the run in which it fails returns a non-nil one. -/
theorem home_failure_changes_err :
    (findSiaDir statHomeOnly homeUser).err = none ∧
      (findSiaDir statHomeOnly homeFailed).err ≠ none := by
  decide

/-- C3, amended: for a filesystem `stat` and a home directory `h`, the run in which
`homedir.Dir` fails returns a nil error exactly when the marker is in the working
directory, the run in which it succeeds with `h` exactly when the marker is in the
working directory or under `h/.config/sia/`; the two runs return the same error
exactly when the marker is in the working directory or absent from `h/.config/sia/`. -/
theorem findSiaDir_home_failure_err (stat : String → Option String) (h h' e : String) :
    ((findSiaDir stat ⟨h', some e⟩).err = none ↔ stat "style/index.html" = none) ∧
    ((findSiaDir stat ⟨h, none⟩).err = none ↔
      (stat "style/index.html" = none ∨ stat (h ++ "/.config/sia/style/index.html") = none)) ∧
    ((findSiaDir stat ⟨h, none⟩).err = (findSiaDir stat ⟨h', some e⟩).err ↔
      (stat "style/index.html" = none ∨ stat (h ++ "/.config/sia/style/index.html") ≠ none)) := by
  rw [findSiaDir_eq, findSiaDir_eq]
  cases h1 : stat "style/index.html" <;>
    cases h3 : stat (h ++ "/.config/sia/style/index.html") <;> simp

/-- C4: `findSiaDir` returns `siaDir = home ++ "/.config/sia/"` exactly when the marker
is absent from the working directory, `homedir.Dir` succeeded and the marker exists at
`home ++ "/.config/sia/style/index.html"`; in every other state it returns `siaDir = ""`;
the returned `home` is the result of the home lookup in every state. -/
theorem findSiaDir_siaDir (stat : String → Option String) (hd : HomeLookup) :
    (findSiaDir stat hd).home = hd.home ∧
    (findSiaDir stat hd).siaDir =
      (if stat "style/index.html" ≠ none ∧ hd.err = none ∧
          stat (hd.home ++ "/.config/sia/style/index.html") = none
        then hd.home ++ "/.config/sia/" else "") ∧
    ((findSiaDir stat hd).siaDir = hd.home ++ "/.config/sia/" ↔
      (stat "style/index.html" ≠ none ∧ hd.err = none ∧
        stat (hd.home ++ "/.config/sia/style/index.html") = none)) := by
  have hne := append_sia_ne_empty hd.home
  rw [findSiaDir_eq]
  cases h1 : stat "style/index.html" <;> cases h2 : hd.err <;>
    cases h3 : stat (hd.home ++ "/.config/sia/style/index.html") <;> simp [Ne.symm hne]

/-- C10: the error `findSiaDir` returns is nil or the style-folder-not-found error, never
an error of `os.Stat` or of `homedir.Dir`; the returned `home` is the lookup's result; and
when the marker is in the working directory the error is nil whether or not the home
lookup failed (so a failed lookup with the empty result gives `home = ""`, `err = nil`). -/
theorem findSiaDir_only_error (stat : String → Option String) (hd : HomeLookup) :
    ((findSiaDir stat hd).err = none ∨
      (findSiaDir stat hd).err = some (Error.errorf
        "Style folder not found, please put the \x27style/\x27 folder in the current directory")) ∧
    (∀ m, (findSiaDir stat hd).err ≠ some (Error.os m) ∧
      (findSiaDir stat hd).err ≠ some (Error.homedir m)) ∧
    (findSiaDir stat hd).home = hd.home ∧
    (stat "style/index.html" = none →
      (findSiaDir stat hd).err = none ∧ (findSiaDir stat hd).siaDir = "" ∧
      (hd.home = "" → (findSiaDir stat hd).home = "")) := by
  rw [findSiaDir_eq]
  cases h1 : stat "style/index.html" <;> cases h2 : hd.err <;>
    cases h3 : stat (hd.home ++ "/.config/sia/style/index.html") <;> simp [styleNotFound]

/-- C10 at a concrete input: the marker is in the working directory and the home lookup
fails with the empty string. -/
theorem findSiaDir_only_error_witness :
    (findSiaDir statCwdOnly homeFailed).err = none ∧
      (findSiaDir statCwdOnly homeFailed).siaDir = "" ∧
      (findSiaDir statCwdOnly homeFailed).home = "" :=
  have h := (findSiaDir_only_error statCwdOnly homeFailed).2.2.2 (by decide)
  ⟨h.1, h.2.1, h.2.2 (by decide)⟩

/-! ## Claims on main -/

/-- C1: for every field, the value handed to `createDaemon` after the three passes of
`main` is the command-line value if the field's flag was explicitly supplied, otherwise the
config-file value if the file exists and defines the field, otherwise the default. -/
theorem main_precedence (env : Env) (flags : List Assign) (f : Field) :
    ∃ cfg : Config, (main env ⟨Command.root, flags⟩).daemon = some cfg ∧
      cfg.get f =
        precedence (lastValue f flags)
          (if env.stat ((findSiaDir env.stat env.homedir).siaDir ++ "config") = none
            then lastValue f
              (env.readFileInto ((findSiaDir env.stat env.homedir).siaDir ++ "config")).writes
            else none)
          ((buildDefaults (findSiaDir env.stat env.homedir).siaDir
            (findSiaDir env.stat env.homedir).home).get f) := by
  refine ⟨_, main_root env flags, ?_⟩
  rw [get_applyAll, loadConfigFile_get]
  simp only [buildDefaults, precedence]
  cases lastValue f flags <;> simp only [Option.getD]
  split <;> rename_i h <;> simp only [h, Option.getD]

/-- C1 at the claim's example: the file sets `Siad.APIaddr = "0.0.0.0:9980"`; without
`--api-addr` the daemon gets `"0.0.0.0:9980"`, with `--api-addr 1.2.3.4:9980` it gets
`"1.2.3.4:9980"`, and `Siacore.RPCaddr`, which neither sets, keeps its default. -/
theorem main_precedence_witness :
    (∃ cfg : Config, (main envFile ⟨Command.root, []⟩).daemon = some cfg ∧
      cfg.get Field.APIaddr = Value.str "0.0.0.0:9980") ∧
    (∃ cfg : Config,
      (main envFile ⟨Command.root, [Assign.APIaddr "1.2.3.4:9980"]⟩).daemon = some cfg ∧
      cfg.get Field.APIaddr = Value.str "1.2.3.4:9980") ∧
    (∃ cfg : Config,
      (main envFile ⟨Command.root, [Assign.APIaddr "1.2.3.4:9980"]⟩).daemon = some cfg ∧
      cfg.get Field.RPCaddr = Value.str ":9988") := by
  refine ⟨?_, ?_, ?_⟩
  · obtain ⟨cfg, h1, h2⟩ := main_precedence envFile [] Field.APIaddr
    exact ⟨cfg, h1, h2.trans (by decide)⟩
  · obtain ⟨cfg, h1, h2⟩ := main_precedence envFile [Assign.APIaddr "1.2.3.4:9980"] Field.APIaddr
    exact ⟨cfg, h1, h2.trans (by decide)⟩
  · obtain ⟨cfg, h1, h2⟩ := main_precedence envFile [Assign.APIaddr "1.2.3.4:9980"] Field.RPCaddr
    exact ⟨cfg, h1, h2.trans (by decide)⟩

/-- C5: with no config file at the config-file path and no explicitly supplied flag, the
`Config` handed to `createDaemon` is the default build for the `(home, siaDir)` that
`findSiaDir` returns; when `siaDir` is the home fallback, `HostDirectory` is
`home ++ "/.config/sia/host/"`. -/
theorem main_defaults (env : Env)
    (hfile : env.stat ((findSiaDir env.stat env.homedir).siaDir ++ "config") ≠ none) :
    (main env ⟨Command.root, []⟩).daemon =
      some
        { Siacore :=
            { RPCaddr := ":9988",
              HostDirectory := (findSiaDir env.stat env.homedir).siaDir ++ "host/",
              NoBootstrap := false },
          Siad :=
            { APIaddr := "localhost:9980",
              ConfigFilename := (findSiaDir env.stat env.homedir).siaDir ++ "config",
              DownloadDirectory := (findSiaDir env.stat env.homedir).home ++ "/Downloads/",
              StyleDirectory := (findSiaDir env.stat env.homedir).siaDir ++ "style/",
              WalletFile := (findSiaDir env.stat env.homedir).siaDir ++ "sia.wallet" } } ∧
    ((findSiaDir env.stat env.homedir).siaDir = env.homedir.home ++ "/.config/sia/" →
      (findSiaDir env.stat env.homedir).siaDir ++ "host/" =
        env.homedir.home ++ "/.config/sia/host/") := by
  constructor
  · rw [main_root]
    unfold loadConfigFile
    cases h : env.stat (buildDefaults (findSiaDir env.stat env.homedir).siaDir
        (findSiaDir env.stat env.homedir).home).Siad.ConfigFilename with
    | none => exact absurd h hfile
    | some e => rfl
  · intro h
    rw [h, String.append_assoc]
    rfl

/-- C5 at a concrete input: the marker is only under `/home/user/.config/sia/`, and no
config file exists. -/
theorem main_defaults_witness :
    (main envHome ⟨Command.root, []⟩).daemon =
      some
        { Siacore :=
            { RPCaddr := ":9988",
              HostDirectory := "/home/user/.config/sia/host/",
              NoBootstrap := false },
          Siad :=
            { APIaddr := "localhost:9980",
              ConfigFilename := "/home/user/.config/sia/config",
              DownloadDirectory := "/home/user/Downloads/",
              StyleDirectory := "/home/user/.config/sia/style/",
              WalletFile := "/home/user/.config/sia/sia.wallet" } } :=
  ((main_defaults envHome (by decide)).1).trans (by decide)

/-- C6, on the code: the command line `--config-file /etc/sia/alt.cfg` is given, the file
`/etc/sia/alt.cfg` exists and sets `Siad.APIaddr = "0.0.0.0:9980"`, and there is no file at
the default path `config`.  `main` probes the default path before the flags are parsed,
finds nothing, merges nothing: the daemon gets the default API address, and the same
`Config` as on a machine without `/etc/sia/alt.cfg`, up to `ConfigFilename`. -/
theorem main_config_file_flag_not_consulted :
    (main envAltFile ⟨Command.root, [Assign.ConfigFilename "/etc/sia/alt.cfg"]⟩).daemon =
      some
        { Siacore := { RPCaddr := ":9988", HostDirectory := "host/", NoBootstrap := false },
          Siad :=
            { APIaddr := "localhost:9980",
              ConfigFilename := "/etc/sia/alt.cfg",
              DownloadDirectory := "/home/user/Downloads/",
              StyleDirectory := "style/",
              WalletFile := "sia.wallet" } } ∧
    envAltFile.stat "/etc/sia/alt.cfg" = none ∧
    envAltFile.readFileInto "/etc/sia/alt.cfg" = apiAddrFile := by
  decide

/-- C7: when the config file exists and its decoding returns an error, `main` prints
`Error reading config file: ` and the error, still calls `createDaemon`, and every field of
the `Config` it passes is the command-line value if the flag was explicitly supplied,
otherwise the value the failed decoding wrote if it wrote the field, otherwise the
default. -/
theorem main_decode_error_nonfatal (env : Env) (flags : List Assign) (e : String)
    (hfile : env.stat ((findSiaDir env.stat env.homedir).siaDir ++ "config") = none)
    (herr : (env.readFileInto ((findSiaDir env.stat env.homedir).siaDir ++ "config")).err
      = some e) :
    ("Error reading config file: " ++ e) ∈ (main env ⟨Command.root, flags⟩).out ∧
    ∃ cfg : Config, (main env ⟨Command.root, flags⟩).daemon = some cfg ∧
      ∀ f : Field, cfg.get f =
        precedence (lastValue f flags)
          (lastValue f
            (env.readFileInto ((findSiaDir env.stat env.homedir).siaDir ++ "config")).writes)
          ((buildDefaults (findSiaDir env.stat env.homedir).siaDir
            (findSiaDir env.stat env.homedir).home).get f) := by
  constructor
  · have hout : (loadConfigFile env (buildDefaults (findSiaDir env.stat env.homedir).siaDir
        (findSiaDir env.stat env.homedir).home)).2 = ["Error reading config file: " ++ e] := by
      simp only [loadConfigFile, buildDefaults, hfile, herr]
    simp only [main, registerFlags_zero, hout]
    simp
  · refine ⟨_, main_root env flags, ?_⟩
    intro f
    rw [get_applyAll, loadConfigFile_get]
    simp only [buildDefaults, precedence, hfile, if_true]
    cases lastValue f flags <;> simp only [Option.getD]
    split <;> rename_i h <;> simp only [h, Option.getD]

/-- C7 at a concrete input: the file `config` stores `Siacore.RPCaddr = ":7777"` and
then fails to decode; the command line is `--api-addr 1.2.3.4:9980`. -/
theorem main_decode_error_nonfatal_witness :
    ("Error reading config file: 2:1: expected section header") ∈
      (main envBroken ⟨Command.root, [Assign.APIaddr "1.2.3.4:9980"]⟩).out ∧
    ∃ cfg : Config,
      (main envBroken ⟨Command.root, [Assign.APIaddr "1.2.3.4:9980"]⟩).daemon = some cfg ∧
      cfg.get Field.APIaddr = Value.str "1.2.3.4:9980" ∧
      cfg.get Field.RPCaddr = Value.str ":7777" ∧
      cfg.get Field.WalletFile = Value.str "sia.wallet" := by
  obtain ⟨hout, cfg, hd, hget⟩ :=
    main_decode_error_nonfatal envBroken [Assign.APIaddr "1.2.3.4:9980"]
      "2:1: expected section header" (by decide) (by decide)
  exact ⟨hout, cfg, hd, (hget Field.APIaddr).trans (by decide),
    (hget Field.RPCaddr).trans (by decide), (hget Field.WalletFile).trans (by decide)⟩

/-- C8: when `findSiaDir` returns an error, `main` first prints `Warning: ` and the error,
goes on through flag registration, the config-file block and `root.Execute`, and the
registered defaults are built from `siaDir = ""`: `ConfigFilename = "config"`,
`HostDirectory = "host/"`, `StyleDirectory = "style/"`, `WalletFile = "sia.wallet"`. -/
theorem main_asset_warning (env : Env) (args : CmdLine) (e : Error)
    (herr : (findSiaDir env.stat env.homedir).err = some e) :
    (main env args).out =
      ("Warning: " ++ e.msg) ::
        ((loadConfigFile env (registerFlags env.homedir.home "" Config.zero)).2 ++
          (execute env args
            (loadConfigFile env (registerFlags env.homedir.home "" Config.zero)).1).out) ∧
    (main env args).daemon =
      (execute env args
        (loadConfigFile env (registerFlags env.homedir.home "" Config.zero)).1).daemon ∧
    (main env ⟨Command.root, args.flags⟩).daemon =
      some (applyAll
        (loadConfigFile env (registerFlags env.homedir.home "" Config.zero)).1 args.flags) ∧
    registerFlags env.homedir.home "" Config.zero =
      { Siacore := { RPCaddr := ":9988", HostDirectory := "host/", NoBootstrap := false },
        Siad :=
          { APIaddr := "localhost:9980",
            ConfigFilename := "config",
            DownloadDirectory := env.homedir.home ++ "/Downloads/",
            StyleDirectory := "style/",
            WalletFile := "sia.wallet" } } ∧
    e.msg = "Style folder not found, please put the \x27style/\x27 folder in the current directory"
    := by
  have hr := findSiaDir_eq env.stat env.homedir
  have hs : (findSiaDir env.stat env.homedir).siaDir = "" ∧
      (findSiaDir env.stat env.homedir).home = env.homedir.home ∧ e = styleNotFound := by
    rw [hr] at herr ⊢
    split at herr
    · simp at herr
    · split at herr
      · simp at herr
      · rename_i h1 h2
        simp only [h1, h2, if_false]
        simp only [Option.some.injEq] at herr
        exact ⟨trivial, trivial, herr.symm⟩
  obtain ⟨hs1, hs2, hs3⟩ := hs
  refine ⟨?_, ?_, ?_, ?_, ?_⟩
  · simp only [main, herr, hs1, hs2]
    simp
  · simp only [main, hs1, hs2]
  · rw [main_root, hs1, hs2, registerFlags_zero]
  · rw [registerFlags_zero]
    simp only [buildDefaults]
    rfl
  · rw [hs3]; rfl

/-- C8 at a concrete input: no marker anywhere, no config file, no flag. -/
theorem main_asset_warning_witness :
    (main envNothing ⟨Command.root, []⟩).out =
      ["Warning: Style folder not found, please put the \x27style/\x27 folder in the current directory"] ∧
    (main envNothing ⟨Command.root, []⟩).daemon =
      some
        { Siacore := { RPCaddr := ":9988", HostDirectory := "host/", NoBootstrap := false },
          Siad :=
            { APIaddr := "localhost:9980",
              ConfigFilename := "config",
              DownloadDirectory := "/home/user/Downloads/",
              StyleDirectory := "style/",
              WalletFile := "sia.wallet" } } :=
  have h := main_asset_warning envNothing ⟨Command.root, []⟩ styleNotFound (by decide)
  ⟨h.1.trans (by decide), h.2.1.trans (by decide)⟩

/-- C9, as stated, fails: with no marker anywhere, the `version` command line prints the
style-folder warning before the version string. -/
theorem version_path_prints_warning :
    (main envNothing ⟨Command.version, []⟩).out =
      ["Warning: Style folder not found, please put the \x27style/\x27 folder in the current directory",
        "Sia Daemon v0.1.0"] ∧
    (main envNothing ⟨Command.version, []⟩).out ≠ ["Sia Daemon v0.1.0"] := by
  decide

/-- C9, amended: on the `version` path `createDaemon` is not called, the function
`version` prints exactly `Sia Daemon v0.1.0`, and the output of the program is the
style-folder warning when `findSiaDir` fails, then the config-file decoding error when the
file at the default path exists and does not decode, then the version string as the last
line. -/
theorem main_version (env : Env) (flags : List Assign) :
    (main env ⟨Command.version, flags⟩).daemon = none ∧
    version.out = ["Sia Daemon v0.1.0"] ∧
    (main env ⟨Command.version, flags⟩).out =
      (if (findSiaDir env.stat env.homedir).err = none then []
        else ["Warning: Style folder not found, please put the \x27style/\x27 folder in the current directory"])
      ++ (if env.stat ((findSiaDir env.stat env.homedir).siaDir ++ "config") = none then
          match (env.readFileInto ((findSiaDir env.stat env.homedir).siaDir ++ "config")).err with
          | some e => ["Error reading config file: " ++ e]
          | none => []
        else [])
      ++ ["Sia Daemon v0.1.0"] := by
  refine ⟨rfl, rfl, ?_⟩
  have honly := (findSiaDir_err_cases env.stat env.homedir)
  simp only [main, execute, version, registerFlags_zero, loadConfigFile, buildDefaults]
  congr 1
  congr 1
  · rcases honly with h | h <;> rw [h] <;> simp [styleNotFound, Error.msg]
  · cases env.stat ((findSiaDir env.stat env.homedir).siaDir ++ "config") <;> simp

end Siad
